import Mathlib

/-!
Verification development for the mcp-servers-factory repository: a shallow
embedding in Lean 4 of the three MCP tool servers
(`confluence-mcp-server/main.py`, `github-mcp-server/server.py`,
`github-mcp-server/oauth.py`, `github-mcp-server/sample.py`,
`gitlab-mcp-server/main.py`).

Each Python tool function is translated into an executable Lean function.
The upstream HTTP service is modelled as a `Backend`: a function from the
index of the request issued during one tool invocation to the `HttpResp`
the service returns for it.  Every tool returns the ordered list of
upstream requests it issued (the trace) together with either a normal
JSON result or a `ToolErr` mirroring the Python exception the source
raises (`HTTPException`, `RuntimeError`, `KeyError`, `TypeError`,
`AttributeError`, `NameError`).
-/

namespace MCP

/-- JSON values, the data moved between the tools and the upstream APIs. -/
inductive Json where
  | null
  | bool (b : Bool)
  | num (n : Int)
  | str (s : String)
  | arr (items : List Json)
  | obj (fields : List (String × Json))

/-- First field with the given key (Python dict keys are unique, so first
match is the dict lookup). -/
def lookupField : List (String × Json) → String → Option Json
  | [], _ => none
  | (k, v) :: rest, key => if k = key then some v else lookupField rest key

/-- Follow a path of keys through nested objects (statement helper). -/
def jsonAt : Json → List String → Option Json
  | j, [] => some j
  | .obj fs, k :: ks =>
      match lookupField fs k with
      | some v => jsonAt v ks
      | none => none
  | _, _ :: _ => none

mutual

/-- Python `str()` of a JSON value, as used by f-string interpolation.
Scalar cases are exact; container rendering keeps structure and order. -/
def pyStr : Json → String
  | .null => "None"
  | .bool b => if b then "True" else "False"
  | .num n => toString n
  | .str s => s
  | .arr xs => "[" ++ pyStrItems xs ++ "]"
  | .obj fs => "\x7b" ++ pyStrFields fs ++ "\x7d"

def pyStrItems : List Json → String
  | [] => ""
  | [x] => pyStr x
  | x :: xs => pyStr x ++ ", " ++ pyStrItems xs

def pyStrFields : List (String × Json) → String
  | [] => ""
  | [(k, v)] => k ++ ": " ++ pyStr v
  | (k, v) :: fs => k ++ ": " ++ pyStr v ++ ", " ++ pyStrFields fs

end

/-- Python truthiness of a JSON value (`if not x`). -/
def pyFalsy : Json → Bool
  | .null => true
  | .bool b => !b
  | .num n => n == 0
  | .str s => s == ""
  | .arr xs => xs.isEmpty
  | .obj fs => fs.isEmpty

/-- Truthiness of an `Optional[str]` argument: `None` and `""` are falsy. -/
def pyTruthyOpt : Option String → Bool
  | none => false
  | some s => !(s == "")

/-- An `Optional[str]` argument as the JSON value it denotes. -/
def optStrJson : Option String → Json
  | none => .null
  | some s => .str s

/-- UTF-8 bytes of one character (Python `str.encode`). -/
def utf8Bytes (c : Char) : List Nat :=
  let n := c.toNat
  if n < 128 then [n]
  else if n < 2048 then [192 + n / 64, 128 + n % 64]
  else if n < 65536 then [224 + n / 4096, 128 + n / 64 % 64, 128 + n % 64]
  else [240 + n / 262144, 128 + n / 4096 % 64, 128 + n / 64 % 64, 128 + n % 64]

/-- UTF-8 bytes of a string. -/
def strBytes (s : String) : List Nat := (s.toList.map utf8Bytes).flatten

def b64Alphabet : List Char :=
  "ABCDEFGHIJKLMNOPQRSTUVWXYZabcdefghijklmnopqrstuvwxyz0123456789+/".toList

def b64Char (n : Nat) : Char := b64Alphabet.getD n 'A'

/-- Standard base64 of a byte list, with padding (Python `base64.b64encode`). -/
def b64EncodeBytes : List Nat → String
  | [] => ""
  | [a] =>
      String.mk [b64Char (a / 4), b64Char (a % 4 * 16)] ++ "=="
  | [a, b] =>
      String.mk [b64Char (a / 4), b64Char (a % 4 * 16 + b / 16), b64Char (b % 16 * 4)] ++ "="
  | a :: b :: c :: rest =>
      String.mk [b64Char (a / 4), b64Char (a % 4 * 16 + b / 16),
                 b64Char (b % 16 * 4 + c / 64), b64Char (c % 64)] ++ b64EncodeBytes rest

/-- `base64.b64encode(s.encode()).decode()`. -/
def b64Encode (s : String) : String := b64EncodeBytes (strBytes s)

def hexDigit (n : Nat) : Char := "0123456789ABCDEF".toList.getD n '0'

/-- Percent-encode one character unless it is in the always-safe set or in
`safe` (Python `urllib.parse.quote`, reached via `requests.utils.quote`). -/
def quoteChar (safe : String) (c : Char) : String :=
  if c.isAlphanum || "_.-~".toList.contains c || safe.toList.contains c then String.mk [c]
  else String.join ((utf8Bytes c).map (fun b => String.mk ['%', hexDigit (b / 16), hexDigit (b % 16)]))

/-- `requests.utils.quote(s, safe=safe)`; the library default for `safe` is `"/"`. -/
def pyQuote (s : String) (safe : String) : String :=
  String.join (s.toList.map (quoteChar safe))

/-- Python `str.lower()`. -/
def pyLower (s : String) : String := String.mk (s.toList.map Char.toLower)

def leadsWith : List Char → List Char → Bool
  | [], _ => true
  | _ :: _, [] => false
  | a :: as, b :: bs => a == b && leadsWith as bs

def containsSeq (needle : List Char) : List Char → Bool
  | [] => leadsWith needle []
  | c :: cs => leadsWith needle (c :: cs) || containsSeq needle cs

/-- Python substring test `needle in haystack`. -/
def pyInStr (needle haystack : String) : Bool := containsSeq needle.toList haystack.toList

/-- `"sep".join(parts)`. -/
def joinSep (sep : String) : List String → String
  | [] => ""
  | [x] => x
  | x :: xs => x ++ sep ++ joinSep sep xs

/-- The payload a request helper attaches to an upstream error: either the
JSON-decoded body or the raw text. -/
inductive ErrDetail where
  | json (j : Json)
  | text (t : String)

/-- Errors a tool invocation can surface, mirroring the Python exceptions
raised in the sources.  The spec taxonomy maps onto these as follows:
`ForbiddenByPolicy` is `httpException 403 "Readonly mode enforced"`,
`Unauthenticated` is `httpException 401 …`, `PreconditionFailed` is
`runtimeError "Could not determine current version number for the page."`,
`InvalidArgument` is the argument-validation `runtimeError`s, and
`UpstreamError` is `apiError`/`httpException` built from a non-2xx
upstream response.  `missingSchema` is the `requests` library's
`MissingSchema` exception, raised while preparing a URL that has no
scheme, before any request is issued. -/
inductive ToolErr where
  | httpException (status : Nat) (detail : String)
  | apiError (api : String) (status : Nat) (detail : ErrDetail)
  | runtimeError (msg : String)
  | keyError (key : String)
  | typeError (msg : String)
  | attributeError (msg : String)
  | nameError (name : String)
  | jsonDecodeError
  | missingSchema (url : String)

end MCP

namespace MCP

/-- One upstream HTTP response as the `requests` library presents it:
`ok`, `status_code`, `text`, and the result of `resp.json()` (`none` when
the body does not parse as JSON). -/
structure HttpResp where
  ok : Bool
  status : Nat
  text : String
  json : Option Json

/-- A successful response whose body parses to `j`. -/
def okResp (j : Json) : HttpResp :=
  { ok := true, status := 200, text := "ok", json := some j }

/-- A failed response with raw, non-JSON text. -/
def errResp (status : Nat) (text : String) : HttpResp :=
  { ok := false, status := status, text := text, json := none }

/-- The upstream service: the response to the i-th request issued during
one tool invocation. -/
abbrev Backend := Nat → HttpResp

/-- One issued upstream request. -/
structure HttpReq where
  method : String
  url : String
  body : Option Json

/-- An invocation outcome: the ordered trace of issued requests and the
result. -/
abbrev Outcome (α : Type) := List HttpReq × Except ToolErr α

/-- Sequencing that stops at the first error while keeping the trace. -/
def step {α β : Type} (x : Outcome α) (f : α → List HttpReq → Outcome β) : Outcome β :=
  match x with
  | (t, .ok a) => f a t
  | (t, .error e) => (t, .error e)

/-- Python `j[k]`: `KeyError` on a dict without the key, `TypeError` on a
non-dict. -/
def subscript (j : Json) (k : String) : Except ToolErr Json :=
  match j with
  | .obj fs =>
      match lookupField fs k with
      | some v => .ok v
      | none => .error (.keyError k)
  | _ => .error (.typeError "object is not subscriptable")

/-- Python `j[k1][k2]`. -/
def subscript2 (j : Json) (k1 k2 : String) : Except ToolErr Json :=
  match subscript j k1 with
  | .ok v => subscript v k2
  | .error e => .error e

/-- Python `j.get(k, dflt)`: `AttributeError` when `j` is not a dict. -/
def dictGet (j : Json) (k : String) (dflt : Json) : Except ToolErr Json :=
  match j with
  | .obj fs => .ok ((lookupField fs k).getD dflt)
  | _ => .error (.attributeError "object has no attribute get")

/-- Python `a + b` on JSON values (numbers, bools-as-ints, strings, lists). -/
def pyAdd : Json → Json → Except ToolErr Json
  | .num a, .num b => .ok (.num (a + b))
  | .num a, .bool b => .ok (.num (a + (if b then 1 else 0)))
  | .bool a, .num b => .ok (.num ((if a then 1 else 0) + b))
  | .bool a, .bool b => .ok (.num ((if a then 1 else 0) + (if b then 1 else 0)))
  | .str a, .str b => .ok (.str (a ++ b))
  | .arr a, .arr b => .ok (.arr (a ++ b))
  | _, _ => .error (.typeError "unsupported operand type(s) for +")

/-- Python `for x in j`: lists yield items, dicts yield keys, strings yield
characters; anything else raises `TypeError`. -/
def pyIter : Json → Except ToolErr (List Json)
  | .arr xs => .ok xs
  | .obj fs => .ok (fs.map (fun f => .str f.1))
  | .str s => .ok (s.toList.map (fun c => .str (String.mk [c])))
  | _ => .error (.typeError "object is not iterable")

/-- Python `xs[0]` on a JSON value: first list item, first character of a
string, `KeyError` on a dict without an integer key, `TypeError`
otherwise. -/
def pyIndex0 : Json → Except ToolErr Json
  | .arr (x :: _) => .ok x
  | .arr [] => .error (.typeError "list index out of range")
  | .str s =>
      match s.toList with
      | c :: _ => .ok (.str (String.mk [c]))
      | [] => .error (.typeError "string index out of range")
  | .obj _ => .error (.keyError "0")
  | _ => .error (.typeError "object is not subscriptable")

/-- Result field lookup for statements: the value at key `k` of a
successful result. -/
def okField (r : Outcome Json) (k : String) : Option Json :=
  match r.2 with
  | .ok j => jsonAt j [k]
  | .error _ => none

end MCP

namespace MCP

/-! ## confluence-mcp-server/main.py -/

/-- `cf_request`: issue the request; a non-ok status raises
`RuntimeError(f"Confluence API error {status}: {detail}")` where `detail`
is the JSON-decoded body when it parses, else the raw text; an ok response
returns its JSON, `{"raw": text}` when the body does not parse, `{}` when
it is empty. -/
def cfRequest (bk : Backend) (trace : List HttpReq) (method url : String) (body : Option Json) :
    Outcome Json :=
  let t := trace ++ [⟨method, url, body⟩]
  let r := bk trace.length
  if r.ok then
    if r.text = "" then (t, .ok (.obj []))
    else
      match r.json with
      | some j => (t, .ok j)
      | none => (t, .ok (.obj [("raw", .str r.text)]))
  else
    (t, .error (.apiError "Confluence" r.status
      (match r.json with
       | some j => .json j
       | none => .text r.text)))

/-- `storage_body_html`. -/
def storageBodyHtml (html : String) : Json :=
  .obj [("storage", .obj [("value", .str html), ("representation", .str "storage")])]

/-- `confluence_create_page`. -/
def confluenceCreatePage (apiBase : String) (bk : Backend) (spaceKey title htmlContent : String)
    (parentPageId : Option String) : Outcome Json :=
  let data : Json := .obj
    ([("type", .str "page"), ("title", .str title),
      ("space", .obj [("key", .str spaceKey)]),
      ("body", storageBodyHtml htmlContent)] ++
     (if pyTruthyOpt parentPageId then
        [("ancestors", .arr [.obj [("id", .str (parentPageId.getD ""))]])]
      else []))
  step (cfRequest bk [] "POST" (apiBase ++ "/content") (some data)) fun created t =>
  step (t, dictGet created "id" .null) fun cid t =>
  step (t, dictGet created "title" .null) fun ctitle t =>
  step (t, dictGet created "_links" (.obj [])) fun links t =>
  step (t, dictGet links "base" (.str "")) fun lbase t =>
  step (t, dictGet created "_links" (.obj [])) fun links2 t =>
  step (t, dictGet links2 "webui" (.str "")) fun lwebui t =>
  step (t, pyAdd lbase lwebui) fun link t =>
  (t, .ok (.obj [("message", .str "Page created"), ("id", cid), ("title", ctitle),
                 ("link", link)]))

/-- `confluence_get_page`. -/
def confluenceGetPage (apiBase : String) (bk : Backend) (pageId title spaceKey : Option String)
    (expandBody : Bool) : Outcome Json :=
  let expand := if expandBody then "body.storage,version" else "version"
  if pyTruthyOpt pageId then
    cfRequest bk [] "GET"
      (apiBase ++ "/content/" ++ pageId.getD "" ++ "?expand=" ++ expand) none
  else if !(pyTruthyOpt title) || !(pyTruthyOpt spaceKey) then
    ([], .error (.runtimeError "Provide either page_id OR (title and space_key)."))
  else
    step (cfRequest bk [] "GET"
        (apiBase ++ "/content?title=" ++ pyQuote (title.getD "") "/" ++
         "&spaceKey=" ++ pyQuote (spaceKey.getD "") "/" ++ "&expand=" ++ expand) none)
      fun result t =>
    step (t, dictGet result "results" (.arr [])) fun results t =>
    if pyFalsy results then
      (t, .ok (.obj [("message", .str "No page found"), ("results", .arr [])]))
    else
      (t, pyIndex0 results)

/-- `confluence_update_page`: fetch the current version, refuse (before
any mutation) when it cannot be determined, then PUT with version + 1. -/
def confluenceUpdatePage (apiBase : String) (bk : Backend) (pageId : String)
    (newTitle newHtmlContent : Option String) (minorEdit : Bool) : Outcome Json :=
  step (cfRequest bk [] "GET" (apiBase ++ "/content/" ++ pageId ++ "?expand=version") none)
    fun current t =>
  step (t, dictGet current "version" (.obj [])) fun verObj t =>
  step (t, dictGet verObj "number" .null) fun version t =>
  if pyFalsy version then
    (t, .error (.runtimeError "Could not determine current version number for the page."))
  else
  step (t, if pyTruthyOpt newTitle then .ok (optStrJson newTitle)
           else dictGet current "title" .null) fun titleVal t =>
  step (t, pyAdd version (.num 1)) fun newVer t =>
  let payload : Json := .obj
    ([("id", .str pageId), ("type", .str "page"), ("title", titleVal),
      ("version", .obj [("number", newVer), ("minorEdit", .bool minorEdit)])] ++
     (match newHtmlContent with
      | some h => [("body", storageBodyHtml h)]
      | none => []))
  step (cfRequest bk t "PUT" (apiBase ++ "/content/" ++ pageId) (some payload)) fun updated t =>
  step (t, dictGet updated "id" .null) fun uid t =>
  step (t, dictGet updated "title" .null) fun utitle t =>
  step (t, dictGet updated "version" (.obj [])) fun uver t =>
  step (t, dictGet uver "number" .null) fun uvnum t =>
  (t, .ok (.obj [("message", .str "Page updated"), ("id", uid), ("title", utitle),
                 ("version", uvnum)]))

/-- `confluence_delete_page`. -/
def confluenceDeletePage (apiBase : String) (bk : Backend) (pageId status : String) :
    Outcome Json :=
  step (cfRequest bk [] "DELETE"
      (apiBase ++ "/content/" ++ pageId ++ "?status=" ++ pyQuote status "/") none) fun _ t =>
  (t, .ok (.obj [("message", .str ("Page " ++ pageId ++ " deleted")), ("status", .str status)]))

/-- `confluence_add_comment`. -/
def confluenceAddComment (apiBase : String) (bk : Backend) (pageId htmlContent : String) :
    Outcome Json :=
  let data : Json := .obj
    [("type", .str "comment"),
     ("container", .obj [("id", .str pageId), ("type", .str "page")]),
     ("body", storageBodyHtml htmlContent)]
  step (cfRequest bk [] "POST" (apiBase ++ "/content/" ++ pageId ++ "/child/comment") (some data))
    fun created t =>
  step (t, dictGet created "id" .null) fun cid t =>
  (t, .ok (.obj [("message", .str "Comment added"), ("id", cid)]))

/-- `confluence_get_comments`. -/
def confluenceGetComments (apiBase : String) (bk : Backend) (pageId : String)
    (limit start : Int) : Outcome Json :=
  cfRequest bk [] "GET"
    (apiBase ++ "/content/" ++ pageId ++ "/child/comment?expand=body.storage,version&limit=" ++
     toString limit ++ "&start=" ++ toString start) none

/-- `confluence_add_label`. -/
def confluenceAddLabel (apiBase : String) (bk : Backend) (pageId : String) (labels : List String) :
    Outcome Json :=
  let payload : Json := .arr (labels.map (fun name =>
    .obj [("prefix", .str "global"), ("name", .str name)]))
  step (cfRequest bk [] "POST" (apiBase ++ "/content/" ++ pageId ++ "/label") (some payload))
    fun resp t =>
  (t, .ok (.obj [("message", .str ("Added " ++ toString labels.length ++ " label(s)")),
                 ("labels", resp)]))

/-- `confluence_get_labels`. -/
def confluenceGetLabels (apiBase : String) (bk : Backend) (pageId : String)
    (limit start : Int) : Outcome Json :=
  cfRequest bk [] "GET"
    (apiBase ++ "/content/" ++ pageId ++ "/label?limit=" ++ toString limit ++
     "&start=" ++ toString start) none

/-- `confluence_get_page_children`. -/
def confluenceGetPageChildren (apiBase : String) (bk : Backend) (pageId : String)
    (limit start : Int) (expandBody : Bool) : Outcome Json :=
  let expand := if expandBody then "body.storage,version" else "version"
  cfRequest bk [] "GET"
    (apiBase ++ "/content/" ++ pageId ++ "/child/page?expand=" ++ expand ++
     "&limit=" ++ toString limit ++ "&start=" ++ toString start) none

/-- `confluence_search`: CQL branch, then simple-query branch, else the
argument-validation `RuntimeError` with no upstream call. -/
def confluenceSearch (apiBase : String) (bk : Backend) (query cql : Option String)
    (limit start : Int) (expandBody : Bool) : Outcome Json :=
  if pyTruthyOpt cql then
    let url := apiBase ++ "/search?cql=" ++ pyQuote (cql.getD "") "/" ++
      "&limit=" ++ toString limit ++ "&start=" ++ toString start
    let url := if expandBody then url ++ "&expand=body.storage" else url
    cfRequest bk [] "GET" url none
  else if pyTruthyOpt query then
    let safe := pyQuote (query.getD "") "/"
    let cqlExpr := "text ~ \"" ++ safe ++ "\" OR title ~ \"" ++ safe ++ "\""
    let url := apiBase ++ "/search?cql=" ++ cqlExpr ++
      "&limit=" ++ toString limit ++ "&start=" ++ toString start
    let url := if expandBody then url ++ "&expand=body.storage" else url
    cfRequest bk [] "GET" url none
  else
    ([], .error (.runtimeError "Provide either \x27query\x27 or \x27cql\x27 for search."))

end MCP

namespace MCP

/-! ## github-mcp-server/server.py -/

/-- `BASE_URL` in server.py (a literal, not configuration). -/
def GITHUB_BASE : String := "https://api.github.com"

/-- The per-request context a tool sees: the value of the
`X-MCP-Readonly` header, when the header is present (Starlette header
lookup is case-insensitive; `none` models an absent header, and a tool
called with no request object at all is `Option.none` at the outer
level). -/
structure ReqCtx where
  readonlyHeader : Option String

/-- `check_readonly`: raise `HTTPException(403)` when
`request.headers.get("X-MCP-Readonly", "").lower() == "true"`.  With the
default `request = None` the attribute access itself raises. -/
def checkReadonly : Option ReqCtx → Except ToolErr Unit
  | none => .error (.attributeError "NoneType object has no attribute headers")
  | some r =>
      if pyLower (r.readonlyHeader.getD "") = "true" then
        .error (.httpException 403 "Readonly mode enforced")
      else
        .ok ()

/-- `github_request` in server.py: non-ok raises
`RuntimeError(f"GitHub API error {status}: {text}")` carrying the raw
text; ok returns `resp.json() if resp.text else {}`. -/
def githubRequest (bk : Backend) (trace : List HttpReq) (method url : String)
    (body : Option Json) : Outcome Json :=
  let t := trace ++ [⟨method, url, body⟩]
  let r := bk trace.length
  if r.ok then
    if r.text = "" then (t, .ok (.obj []))
    else
      match r.json with
      | some j => (t, .ok j)
      | none => (t, .error .jsonDecodeError)
  else
    (t, .error (.apiError "GitHub" r.status (.text r.text)))

/-- `create_branch` (server.py): readonly check, ref fetch, ref create. -/
def createBranch (bk : Backend) (owner repo newBranch : String) (baseBranch : String)
    (req : Option ReqCtx) : Outcome Json :=
  match checkReadonly req with
  | .error e => ([], .error e)
  | .ok _ =>
    step (githubRequest bk [] "GET"
        (GITHUB_BASE ++ "/repos/" ++ owner ++ "/" ++ repo ++ "/git/ref/heads/" ++ baseBranch)
        none) fun refData t =>
    step (t, subscript2 refData "object" "sha") fun sha t =>
    step (githubRequest bk t "POST"
        (GITHUB_BASE ++ "/repos/" ++ owner ++ "/" ++ repo ++ "/git/refs")
        (some (.obj [("ref", .str ("refs/heads/" ++ newBranch)), ("sha", sha)]))) fun resp t =>
    (t, .ok (.obj [("message", .str ("Branch \x27" ++ newBranch ++ "\x27 created")),
                   ("ref", resp)]))

/-- `create_or_update_file` (server.py). -/
def createOrUpdateFile (bk : Backend) (owner repo branch path content message : String)
    (sha : Option String) (req : Option ReqCtx) : Outcome Json :=
  match checkReadonly req with
  | .error e => ([], .error e)
  | .ok _ =>
    let encoded := b64Encode content
    let payload : Json := .obj
      ([("message", .str message), ("content", .str encoded), ("branch", .str branch)] ++
       (if pyTruthyOpt sha then [("sha", .str (sha.getD ""))] else []))
    step (githubRequest bk [] "PUT"
        (GITHUB_BASE ++ "/repos/" ++ owner ++ "/" ++ repo ++ "/contents/" ++ path)
        (some payload)) fun resp t =>
    step (t, dictGet resp "commit" .null) fun commit t =>
    (t, .ok (.obj [("message", .str ("File \x27" ++ path ++ "\x27 updated")),
                   ("commit", commit)]))

/-- `get_contents` (server.py): a read-only tool with no readonly check. -/
def getContents (bk : Backend) (owner repo path ref : String) : Outcome Json :=
  githubRequest bk [] "GET"
    (GITHUB_BASE ++ "/repos/" ++ owner ++ "/" ++ repo ++ "/contents/" ++ path ++ "?ref=" ++ ref)
    none

/-- `create_pull_request` (server.py). -/
def createPullRequest (bk : Backend) (owner repo title head base body : String)
    (req : Option ReqCtx) : Outcome Json :=
  match checkReadonly req with
  | .error e => ([], .error e)
  | .ok _ =>
    step (githubRequest bk [] "POST"
        (GITHUB_BASE ++ "/repos/" ++ owner ++ "/" ++ repo ++ "/pulls")
        (some (.obj [("title", .str title), ("head", .str head), ("base", .str base),
                     ("body", .str body)]))) fun resp t =>
    step (t, dictGet resp "html_url" .null) fun url t =>
    step (t, dictGet resp "number" .null) fun number t =>
    (t, .ok (.obj [("message", .str "PR created"), ("url", url), ("number", number)]))

/-- `merge_pull_request` (server.py). -/
def mergePullRequest (bk : Backend) (owner repo : String) (prNumber : Int)
    (commitMessage : String) (req : Option ReqCtx) : Outcome Json :=
  match checkReadonly req with
  | .error e => ([], .error e)
  | .ok _ =>
    step (githubRequest bk [] "PUT"
        (GITHUB_BASE ++ "/repos/" ++ owner ++ "/" ++ repo ++ "/pulls/" ++
         toString prNumber ++ "/merge")
        (some (.obj [("commit_message", .str commitMessage)]))) fun resp t =>
    step (t, dictGet resp "sha" .null) fun sha t =>
    (t, .ok (.obj [("message", .str ("PR #" ++ toString prNumber ++ " merged")),
                   ("sha", sha)]))

/-- The blob-creation loop of `push_multiple_files` (server.py): one POST
per file, appending a tree entry; the first failure stops the loop. -/
def pushBlobs (bk : Backend) (owner repo : String) (files : List (String × String))
    (t : List HttpReq) (entries : List Json) : Outcome (List Json) :=
  match files with
  | [] => (t, .ok entries)
  | (path, content) :: rest =>
    match githubRequest bk t "POST"
        (GITHUB_BASE ++ "/repos/" ++ owner ++ "/" ++ repo ++ "/git/blobs")
        (some (.obj [("content", .str content), ("encoding", .str "utf-8")])) with
    | (t, .error e) => (t, .error e)
    | (t, .ok blob) =>
      match subscript blob "sha" with
      | .error e => (t, .error e)
      | .ok sha =>
        pushBlobs bk owner repo rest t
          (entries ++ [.obj [("path", .str path), ("mode", .str "100644"),
                             ("type", .str "blob"), ("sha", sha)]])

/-- `push_multiple_files` (server.py): the composite pipeline
ref-fetch → commit-fetch → blob-creates → tree-create → commit-create →
ref-update, each step feeding the next, stopping at the first failure.
Files are modelled as (path, content) pairs. -/
def pushMultipleFiles (bk : Backend) (owner repo branch : String)
    (files : List (String × String)) (message : String) (req : Option ReqCtx) : Outcome Json :=
  match checkReadonly req with
  | .error e => ([], .error e)
  | .ok _ =>
    let refUrl := GITHUB_BASE ++ "/repos/" ++ owner ++ "/" ++ repo ++ "/git/ref/heads/" ++ branch
    step (githubRequest bk [] "GET" refUrl none) fun refData t =>
    step (t, subscript2 refData "object" "sha") fun latestCommitSha t =>
    step (githubRequest bk t "GET"
        (GITHUB_BASE ++ "/repos/" ++ owner ++ "/" ++ repo ++ "/git/commits/" ++
         pyStr latestCommitSha) none) fun commitData t =>
    step (t, subscript2 commitData "tree" "sha") fun baseTree t =>
    step (pushBlobs bk owner repo files t []) fun treeEntries t =>
    step (githubRequest bk t "POST"
        (GITHUB_BASE ++ "/repos/" ++ owner ++ "/" ++ repo ++ "/git/trees")
        (some (.obj [("base_tree", baseTree), ("tree", .arr treeEntries)]))) fun tree t =>
    step (t, subscript tree "sha") fun treeSha t =>
    step (githubRequest bk t "POST"
        (GITHUB_BASE ++ "/repos/" ++ owner ++ "/" ++ repo ++ "/git/commits")
        (some (.obj [("message", .str message), ("tree", treeSha),
                     ("parents", .arr [latestCommitSha])]))) fun commit t =>
    step (t, subscript commit "sha") fun commitSha t =>
    step (githubRequest bk t "PATCH" refUrl (some (.obj [("sha", commitSha)]))) fun _ t =>
    (t, .ok (.obj [("message", .str ("Committed " ++ toString files.length ++ " files")),
                   ("commit", commit)]))

/-- `update_pr_branch` (server.py). -/
def updatePrBranch (bk : Backend) (owner repo : String) (prNumber : Int)
    (req : Option ReqCtx) : Outcome Json :=
  match checkReadonly req with
  | .error e => ([], .error e)
  | .ok _ =>
    step (githubRequest bk [] "PUT"
        (GITHUB_BASE ++ "/repos/" ++ owner ++ "/" ++ repo ++ "/pulls/" ++
         toString prNumber ++ "/update-branch") (some (.obj []))) fun resp t =>
    (t, .ok (.obj [("message", .str ("PR #" ++ toString prNumber ++
                    " branch update requested")), ("response", resp)]))

end MCP

namespace MCP

/-! ## gitlab-mcp-server/main.py

Every mutating tool in this file begins with `check_readonly(request)`,
but none of them has a `request` parameter and no module-level name
`request` exists, so Python raises `NameError` at call time, before any
policy check or upstream request.  The read-only `get_contents` has no
such call and works. -/

/-- `gitlab_request`: non-ok raises
`RuntimeError(f"GitLab API error {status}: {text}")` with the raw text;
ok returns `resp.json() if resp.text else {}`. -/
def gitlabRequest (bk : Backend) (trace : List HttpReq) (method url : String)
    (body : Option Json) : Outcome Json :=
  let t := trace ++ [⟨method, url, body⟩]
  let r := bk trace.length
  if r.ok then
    if r.text = "" then (t, .ok (.obj []))
    else
      match r.json with
      | some j => (t, .ok j)
      | none => (t, .error .jsonDecodeError)
  else
    (t, .error (.apiError "GitLab" r.status (.text r.text)))

/-- `create_branch` (gitlab main.py): the body is
`check_readonly(request) ; …` but the function signature is
`(project_id, new_branch, base_branch="main")` — the name `request` is
undefined, so every invocation raises `NameError` immediately and no
upstream request is ever issued. -/
def gitlabCreateBranch (_bk : Backend) (_projectId _newBranch _baseBranch : String) :
    Outcome Json :=
  ([], .error (.nameError "request"))

/-- `push_multiple_files` (gitlab main.py): like `create_branch` there,
its first statement evaluates the undefined name `request`, so it raises
`NameError` before building the commit payload. -/
def gitlabPushMultipleFiles (_bk : Backend) (_projectId _branch : String)
    (_files : List (String × String)) (_message : String) : Outcome Json :=
  ([], .error (.nameError "request"))

/-- `get_contents` (gitlab main.py): a read-only tool, one GET. -/
def gitlabGetContents (base : String) (bk : Backend) (projectId path ref : String) :
    Outcome Json :=
  gitlabRequest bk [] "GET"
    (base ++ "/projects/" ++ projectId ++ "/repository/files/" ++ pyQuote path "" ++
     "?ref=" ++ ref) none

end MCP

namespace MCP

/-! ## github-mcp-server/oauth.py -/

/-- `github_request` in oauth.py: look up the calling principal in the
in-memory `user_tokens` store; a missing (or empty) token raises
`HTTPException(401, "User not authenticated")` before any network call;
a non-ok response raises `HTTPException(status, text)`. -/
def oauthGithubRequest (base : String) (tokens : String → Option String) (bk : Backend)
    (trace : List HttpReq) (user method path : String) (body : Option Json) : Outcome Json :=
  match tokens user with
  | none => (trace, .error (.httpException 401 "User not authenticated"))
  | some tok =>
    if tok = "" then (trace, .error (.httpException 401 "User not authenticated"))
    else
      let t := trace ++ [⟨method, base ++ path, body⟩]
      let r := bk trace.length
      if r.ok then
        match r.json with
        | some j => (t, .ok j)
        | none => (t, .error .jsonDecodeError)
      else
        (t, .error (.httpException r.status r.text))

/-- `query_github` (oauth.py): case-insensitive keyword dispatch, testing
"pull", then "issue", then "release", falling back to a
query-not-understood message with no upstream call. -/
def queryGithub (base : String) (tokens : String → Option String) (bk : Backend)
    (query user : String) : Outcome Json :=
  if pyInStr "pull" (pyLower query) then
    oauthGithubRequest base tokens bk [] user "GET" "/repos/org/repo/pulls?state=open" none
  else if pyInStr "issue" (pyLower query) then
    oauthGithubRequest base tokens bk [] user "GET" "/repos/org/repo/issues?state=open" none
  else if pyInStr "release" (pyLower query) then
    oauthGithubRequest base tokens bk [] user "GET" "/repos/org/repo/releases" none
  else
    ([], .ok (.obj [("message", .str ("Query not understood: " ++ query))]))

/-- One digest line `f"- {pr['title']} (#{pr['number']})"` per element,
stopping at the first `KeyError`/`TypeError` as the comprehension would. -/
def digestLines : List Json → Except ToolErr (List String)
  | [] => .ok []
  | j :: rest =>
    match subscript j "title" with
    | .error e => .error e
    | .ok ti =>
      match subscript j "number" with
      | .error e => .error e
      | .ok nu =>
        match digestLines rest with
        | .error e => .error e
        | .ok ls => .ok (("- " ++ pyStr ti ++ " (#" ++ pyStr nu ++ ")") :: ls)

/-- `s or dflt` on strings: the empty join is falsy. -/
def strOr (s dflt : String) : String := if s = "" then dflt else s

/-- `weekly_digest` (oauth.py): two upstream list calls, then Markdown
assembly.  `since` stands for the timestamp string the source computes
from the current clock (a week before now, ISO format + "Z"). -/
def weeklyDigest (base : String) (tokens : String → Option String) (bk : Backend)
    (user since : String) : Outcome Json :=
  step (oauthGithubRequest base tokens bk [] user "GET"
      "/repos/org/repo/pulls?state=all&sort=updated&direction=desc" none) fun prs t =>
  step (oauthGithubRequest base tokens bk t user "GET"
      ("/repos/org/repo/issues?since=" ++ since) none) fun issues t =>
  step (t, pyIter prs) fun prList t =>
  step (t, digestLines prList) fun prLines t =>
  step (t, pyIter issues) fun issueList t =>
  step (t, digestLines issueList) fun issueLines t =>
  let md := "# Weekly Digest\n\n" ++ "## Pull Requests\n" ++
    strOr (joinSep "\n" prLines) "No PRs\n" ++ "\n\n## Issues\n" ++
    strOr (joinSep "\n" issueLines) "No issues\n"
  (t, .ok (.obj [("digest", .str md)]))

end MCP

namespace MCP

/-! ## github-mcp-server/sample.py -/

/-- `get_auth_header` (sample.py): prefer the calling principal's stored
token (`if user and user in user_tokens`), else fall back to the static
`GITHUB_TOKEN` (`elif GITHUB_TOKEN`); with no token at all raise
`HTTPException(401, "No GitHub token available")`. -/
def getAuthHeader (tokens : String → Option String) (globalToken : Option String)
    (user : Option String) : Except ToolErr (List (String × String)) :=
  let fromUser : Option String :=
    match user with
    | some u => if !(u = "") && (tokens u).isSome then tokens u else none
    | none => none
  let token : Option String :=
    match fromUser with
    | some t => some t
    | none =>
      match globalToken with
      | some g => if g = "" then none else some g
      | none => none
  match token with
  | none => .error (.httpException 401 "No GitHub token available")
  | some t =>
    if t = "" then .error (.httpException 401 "No GitHub token available")
    else .ok [("Authorization", "Bearer " ++ t), ("Accept", "application/vnd.github.v3+json")]

/-- Whether a URL carries a scheme.  `requests.request` parses its `url`
argument while preparing the request and raises
`requests.exceptions.MissingSchema` when no scheme is present — before
any network traffic. -/
def urlHasScheme (url : String) : Bool := pyInStr "://" url

/-- `github_request` in sample.py: evaluate `get_auth_header(user)` (its
401 fires first), then call `requests.request(method, url, …)` with the
url exactly as given — sample.py does not prepend `BASE_URL`, so a bare
path raises `MissingSchema` with no request issued; a non-ok response
raises `HTTPException(status, text)`. -/
def sampleGithubRequest (tokens : String → Option String) (globalToken : Option String)
    (bk : Backend) (trace : List HttpReq) (method url : String) (user : Option String)
    (body : Option Json) : Outcome Json :=
  match getAuthHeader tokens globalToken user with
  | .error e => (trace, .error e)
  | .ok _ =>
    if !(urlHasScheme url) then
      (trace, .error (.missingSchema url))
    else
      let t := trace ++ [⟨method, url, body⟩]
      let r := bk trace.length
      if r.ok then
        if r.text = "" then (t, .ok (.obj []))
        else
          match r.json with
          | some j => (t, .ok j)
          | none => (t, .error .jsonDecodeError)
      else
        (t, .error (.httpException r.status r.text))

/-- `query_github` (sample.py): same keyword dispatch as oauth.py, but
each branch passes a bare path (no `BASE_URL`) to sample.py's
`github_request`. -/
def sampleQueryGithub (tokens : String → Option String) (globalToken : Option String)
    (bk : Backend) (query user : String) : Outcome Json :=
  if pyInStr "pull" (pyLower query) then
    sampleGithubRequest tokens globalToken bk [] "GET" "/repos/org/repo/pulls?state=open"
      (some user) none
  else if pyInStr "issue" (pyLower query) then
    sampleGithubRequest tokens globalToken bk [] "GET" "/repos/org/repo/issues?state=open"
      (some user) none
  else if pyInStr "release" (pyLower query) then
    sampleGithubRequest tokens globalToken bk [] "GET" "/repos/org/repo/releases"
      (some user) none
  else
    ([], .ok (.obj [("message", .str ("Query not understood: " ++ query))]))

/-- `weekly_digest` (sample.py): same Markdown assembly as oauth.py, but
both list calls pass bare paths to sample.py's `github_request`.
`since` stands for the timestamp string the source computes from the
current clock. -/
def sampleWeeklyDigest (tokens : String → Option String) (globalToken : Option String)
    (bk : Backend) (user since : String) : Outcome Json :=
  step (sampleGithubRequest tokens globalToken bk [] "GET"
      "/repos/org/repo/pulls?state=all&sort=updated&direction=desc" (some user) none)
    fun prs t =>
  step (sampleGithubRequest tokens globalToken bk t "GET"
      ("/repos/org/repo/issues?since=" ++ since) (some user) none) fun issues t =>
  step (t, pyIter prs) fun prList t =>
  step (t, digestLines prList) fun prLines t =>
  step (t, pyIter issues) fun issueList t =>
  step (t, digestLines issueList) fun issueLines t =>
  let md := "# Weekly Digest\n\n" ++ "## Pull Requests\n" ++
    strOr (joinSep "\n" prLines) "No PRs\n" ++ "\n\n## Issues\n" ++
    strOr (joinSep "\n" issueLines) "No issues\n"
  (t, .ok (.obj [("digest", .str md)]))

end MCP

namespace MCP

/-! ## Statement helpers and concrete backends used by the theorems -/

/-- Body of the i-th issued request, for statements about submitted
payloads. -/
def reqBodyAt (r : Outcome Json) (i : Nat) : Option Json :=
  (r.1.get? i).bind (fun q => q.body)

/-- Modelled from the spec: the "best-effort decoded body (JSON object if
parseable, else raw text)" that §4.1/§7 say an `UpstreamError` carries.
Stated only for comparison with the detail each request helper actually
attaches. -/
def bestEffortDetail (r : HttpResp) : ErrDetail :=
  match r.json with
  | some j => .json j
  | none => .text r.text

/-- A generic upstream document carrying every field the embedded tools
read, so an all-success backend can serve any of them. -/
def demoDoc : Json := .obj
  [("object", .obj [("sha", .str "base")]),
   ("tree", .obj [("sha", .str "t0")]),
   ("sha", .str "s0"),
   ("version", .obj [("number", .num 3)]),
   ("title", .str "T"),
   ("id", .str "7"),
   ("html_url", .str "u"),
   ("number", .num 5),
   ("commit", .obj []),
   ("results", .arr [.obj [("id", .str "9")]])]

/-- An upstream that answers every request successfully with `demoDoc`. -/
def demoBackend : Backend := fun _ => okResp demoDoc

/-- An upstream that fails the request with index `n` (status 500, body
"boom") and answers every other one like `demoBackend`. -/
def demoFailAt (n : Nat) : Backend := fun i => if i = n then errResp 500 "boom" else okResp demoDoc

/-- A token store holding one credential, for the static demo principal. -/
def demoTokens : String → Option String := fun u => if u = "demo_user" then some "tok" else none

/-- A token store with no credential for any principal. -/
def noTokens : String → Option String := fun _ => none

/-- An upstream whose responses are JSON arrays of issue/PR-like items,
as the digest endpoints return. -/
def digestBackend : Backend :=
  fun _ => okResp (.arr [.obj [("title", .str "Fix"), ("number", .num 1)]])

/-- An upstream whose page document has no version information. -/
def noVersionBackend : Backend := fun _ => okResp (.obj [("title", .str "T")])

/-- A well-behaved versioned upstream: the fetch reports version `v` and
the update response echoes the submitted version `v + 1`. -/
def echoBackend (v : Int) : Backend := fun i =>
  if i = 0 then okResp (.obj [("title", .str "Old"), ("version", .obj [("number", .num v)])])
  else okResp (.obj [("id", .str "7"), ("title", .str "New"),
                     ("version", .obj [("number", .num (v + 1))])])

/-- A failed response whose body parses as JSON, to probe which detail
the error carries. -/
def badResp : HttpResp :=
  { ok := false, status := 404, text := "\x7b\"message\": \"Not Found\"\x7d",
    json := some (.obj [("message", .str "Not Found")]) }

end MCP


namespace MCP

/-! ## Theorems -/

/-- A backend that answers a request successfully with body `j` makes the
request helper return `j` and record exactly that request. -/
theorem cfRequest_ok (bk : Backend) (trace : List HttpReq) (method url : String)
    (body : Option Json) (j : Json) (h : bk trace.length = okResp j) :
    cfRequest bk trace method url body = (trace ++ [⟨method, url, body⟩], .ok j) := by
  simp [cfRequest, h, okResp]

/-- C1: the spec contract is that a mutating tool invoked with the
readonly marker fails with `ForbiddenByPolicy` (403, no upstream call)
and that read-only tools ignore the marker.  The GitHub server implements
it (conjuncts 2 and 4), but the GitLab server's mutating tools evaluate
the undefined name `request`, so every invocation — marker or not — fails
with `NameError` instead, never reaching the readonly policy (conjuncts
1 and 3). -/
theorem c1_readonly_enforcement :
    gitlabCreateBranch demoBackend "42" "feat" "main" =
      ([], .error (.nameError "request")) ∧
    createBranch demoBackend "o" "r" "feat" "main" (some ⟨some "true"⟩) =
      ([], .error (.httpException 403 "Readonly mode enforced")) ∧
    gitlabPushMultipleFiles demoBackend "42" "b" [("f", "c")] "m" =
      ([], .error (.nameError "request")) ∧
    getContents demoBackend "o" "r" "p" "main" =
      ([⟨"GET", "https://api.github.com/repos/o/r/contents/p?ref=main", none⟩], .ok demoDoc) :=
  ⟨rfl, rfl, rfl, rfl⟩

/-- C2: GitHub `push_multiple_files` on 3 files issues, in order, 1
branch-ref fetch, 1 commit fetch, 3 blob creates, 1 tree create, 1 commit
create, 1 ref update; and when the 2nd blob create (the 4th call, index
3) fails, the pipeline stops with the upstream error after exactly those
4 calls — no tree create, commit create or ref update is issued. -/
theorem c2_push_pipeline_order_and_early_stop :
    ((pushMultipleFiles demoBackend "o" "r" "b" [("f1", "c1"), ("f2", "c2"), ("f3", "c3")] "m"
        (some ⟨none⟩)).1.map (fun q => (q.method, q.url)) =
      [("GET", "https://api.github.com/repos/o/r/git/ref/heads/b"),
       ("GET", "https://api.github.com/repos/o/r/git/commits/base"),
       ("POST", "https://api.github.com/repos/o/r/git/blobs"),
       ("POST", "https://api.github.com/repos/o/r/git/blobs"),
       ("POST", "https://api.github.com/repos/o/r/git/blobs"),
       ("POST", "https://api.github.com/repos/o/r/git/trees"),
       ("POST", "https://api.github.com/repos/o/r/git/commits"),
       ("PATCH", "https://api.github.com/repos/o/r/git/ref/heads/b")]) ∧
    ((pushMultipleFiles (demoFailAt 3) "o" "r" "b" [("f1", "c1"), ("f2", "c2"), ("f3", "c3")] "m"
        (some ⟨none⟩)).1.map (fun q => (q.method, q.url)) =
      [("GET", "https://api.github.com/repos/o/r/git/ref/heads/b"),
       ("GET", "https://api.github.com/repos/o/r/git/commits/base"),
       ("POST", "https://api.github.com/repos/o/r/git/blobs"),
       ("POST", "https://api.github.com/repos/o/r/git/blobs")]) ∧
    (pushMultipleFiles (demoFailAt 3) "o" "r" "b" [("f1", "c1"), ("f2", "c2"), ("f3", "c3")] "m"
        (some ⟨none⟩)).2 = .error (.apiError "GitHub" 500 (.text "boom")) :=
  ⟨rfl, rfl, rfl⟩

/-- C3 counterexample: `create_branch` on the GitHub server issues two
upstream requests in a single invocation (the base-ref fetch and the ref
creation), refuting "exactly one upstream HTTP request per tool
invocation" for a tool outside the push-multiple-files family. -/
theorem c3_counterexample_create_branch_two_calls :
    (createBranch demoBackend "o" "r" "nb" "main" (some ⟨none⟩)).1.length = 2 ∧
    ¬ ((createBranch demoBackend "o" "r" "nb" "main" (some ⟨none⟩)).1.length = 1) :=
  ⟨rfl, by decide⟩

/-- C3 (amended): upstream request counts per invocation on an
all-success backend.  The simple tools issue exactly one request;
`create_branch` (GitHub), the Confluence versioned update, and oauth.py's
weekly digest issue exactly two; the push-multiple-files composite
issues 5 + N; a natural-language query matching no keyword issues zero;
the GitLab mutating tools always fail with zero requests because of the
undefined-`request` defect; and sample.py's `query_github` and
`weekly_digest` always fail with zero requests because they pass bare
paths to `requests.request`, which raises `MissingSchema` before issuing
anything (even with a credential present). -/
theorem c3_upstream_request_counts :
    (getContents demoBackend "o" "r" "p" "main").1.length = 1 ∧
    (createOrUpdateFile demoBackend "o" "r" "b" "p" "c" "m" none (some ⟨none⟩)).1.length = 1 ∧
    (createPullRequest demoBackend "o" "r" "t" "h" "main" "" (some ⟨none⟩)).1.length = 1 ∧
    (mergePullRequest demoBackend "o" "r" 1 "msg" (some ⟨none⟩)).1.length = 1 ∧
    (updatePrBranch demoBackend "o" "r" 1 (some ⟨none⟩)).1.length = 1 ∧
    (createBranch demoBackend "o" "r" "nb" "main" (some ⟨none⟩)).1.length = 2 ∧
    (pushMultipleFiles demoBackend "o" "r" "b" [("f1", "c1"), ("f2", "c2"), ("f3", "c3")] "m"
      (some ⟨none⟩)).1.length = 8 ∧
    (confluenceCreatePage "cb" demoBackend "SP" "T" "<p>x</p>" none).1.length = 1 ∧
    (confluenceGetPage "cb" demoBackend (some "1") none none true).1.length = 1 ∧
    (confluenceUpdatePage "cb" demoBackend "1" (some "t2") none false).1.length = 2 ∧
    (confluenceDeletePage "cb" demoBackend "1" "current").1.length = 1 ∧
    (confluenceAddComment "cb" demoBackend "1" "<p>c</p>").1.length = 1 ∧
    (confluenceGetComments "cb" demoBackend "1" 50 0).1.length = 1 ∧
    (confluenceAddLabel "cb" demoBackend "1" ["a"]).1.length = 1 ∧
    (confluenceGetLabels "cb" demoBackend "1" 200 0).1.length = 1 ∧
    (confluenceGetPageChildren "cb" demoBackend "1" 50 0 false).1.length = 1 ∧
    (confluenceSearch "cb" demoBackend (some "q") none 25 0 false).1.length = 1 ∧
    (gitlabGetContents "gb" demoBackend "42" "a/b.txt" "main").1.length = 1 ∧
    (gitlabCreateBranch demoBackend "42" "nb" "main").1.length = 0 ∧
    (gitlabPushMultipleFiles demoBackend "42" "b" [("f", "c")] "m").1.length = 0 ∧
    (queryGithub "https://api.github.com" demoTokens demoBackend "open issues"
      "demo_user").1.length = 1 ∧
    (queryGithub "https://api.github.com" demoTokens demoBackend "hello"
      "demo_user").1.length = 0 ∧
    (weeklyDigest "https://api.github.com" demoTokens digestBackend "demo_user"
      "2026-01-01T00:00:00Z").1.length = 2 ∧
    sampleQueryGithub demoTokens none demoBackend "open issues" "demo_user" =
      ([], .error (.missingSchema "/repos/org/repo/issues?state=open")) ∧
    sampleWeeklyDigest demoTokens none demoBackend "demo_user" "2026-01-01T00:00:00Z" =
      ([], .error (.missingSchema
        "/repos/org/repo/pulls?state=all&sort=updated&direction=desc")) :=
  ⟨rfl, rfl, rfl, rfl, rfl, rfl, rfl, rfl, rfl, rfl, rfl, rfl, rfl, rfl, rfl, rfl, rfl, rfl,
   rfl, rfl, rfl, rfl, rfl, rfl, rfl⟩

/-- C9: `confluence_search` with neither a simple query nor a CQL
argument fails with the argument-validation error (`InvalidArgument` in
the spec taxonomy) and issues no upstream request, whatever the backend
and the remaining arguments. -/
theorem c9_search_missing_args (apiBase : String) (bk : Backend) (limit start : Int)
    (expandBody : Bool) :
    confluenceSearch apiBase bk none none limit start expandBody =
      ([], .error (.runtimeError "Provide either \x27query\x27 or \x27cql\x27 for search.")) :=
  rfl

/-- C10: GitHub `push_multiple_files` with an empty files list still
issues the ref fetch, commit fetch, tree create (with an empty tree),
commit create, and ref update — zero blob creates — and succeeds with the
message "Committed 0 files". -/
theorem c10_push_empty_files (owner repo branch message : String) :
    pushMultipleFiles demoBackend owner repo branch [] message (some ⟨none⟩) =
      ([⟨"GET", GITHUB_BASE ++ "/repos/" ++ owner ++ "/" ++ repo ++ "/git/ref/heads/" ++ branch,
          none⟩,
        ⟨"GET", GITHUB_BASE ++ "/repos/" ++ owner ++ "/" ++ repo ++ "/git/commits/" ++ "base",
          none⟩,
        ⟨"POST", GITHUB_BASE ++ "/repos/" ++ owner ++ "/" ++ repo ++ "/git/trees",
          some (.obj [("base_tree", .str "t0"), ("tree", .arr [])])⟩,
        ⟨"POST", GITHUB_BASE ++ "/repos/" ++ owner ++ "/" ++ repo ++ "/git/commits",
          some (.obj [("message", .str message), ("tree", .str "s0"),
                      ("parents", .arr [.str "base"])])⟩,
        ⟨"PATCH", GITHUB_BASE ++ "/repos/" ++ owner ++ "/" ++ repo ++ "/git/ref/heads/" ++ branch,
          some (.obj [("sha", .str "s0")])⟩],
       .ok (.obj [("message", .str "Committed 0 files"), ("commit", demoDoc)])) :=
  rfl

end MCP

namespace MCP

/-- C5: when the initial fetch of `confluence_update_page` yields a page
document from which the current version number cannot be determined
(no "version" field, no "number" inside it, or a falsy value there), the
tool fails with the `PreconditionFailed` error and the mutating PUT is
never issued: the trace holds exactly the initial GET. -/
theorem c5_no_version_precondition_failed (apiBase pageId : String) (bk : Backend)
    (newTitle newHtmlContent : Option String) (minorEdit : Bool) (fs : List (String × Json))
    (h0 : bk 0 = okResp (.obj fs))
    (hver : lookupField fs "version" = none ∨
      ∃ gs, lookupField fs "version" = some (.obj gs) ∧
        (lookupField gs "number" = none ∨
         ∃ w, lookupField gs "number" = some w ∧ pyFalsy w = true)) :
    confluenceUpdatePage apiBase bk pageId newTitle newHtmlContent minorEdit =
      ([⟨"GET", apiBase ++ "/content/" ++ pageId ++ "?expand=version", none⟩],
       .error (.runtimeError "Could not determine current version number for the page.")) := by
  rw [confluenceUpdatePage.eq_def,
      cfRequest_ok bk [] "GET" (apiBase ++ "/content/" ++ pageId ++ "?expand=version") none _ h0]
  rcases hver with hnone | ⟨gs, hg, hnum⟩
  · simp [step, dictGet, lookupField, hnone, pyFalsy]
  · rcases hnum with hnn | ⟨w, hw, hfw⟩
    · simp [step, dictGet, lookupField, hg, hnn, pyFalsy]
    · simp [step, dictGet, lookupField, hg, hw, hfw]

/-- C5 witness: a concrete backend whose page document lacks version
information makes the update fail with `PreconditionFailed` after the
single GET. -/
theorem c5_no_version_precondition_failed_witness :
    confluenceUpdatePage "https://conf/rest/api" noVersionBackend "1" none none false =
      ([⟨"GET", "https://conf/rest/api/content/1?expand=version", none⟩],
       .error (.runtimeError "Could not determine current version number for the page.")) :=
  c5_no_version_precondition_failed "https://conf/rest/api" "1" noVersionBackend none none false
    [("title", .str "T")] rfl (Or.inl rfl)

end MCP

namespace MCP

/-- C4: in a successful `confluence_update_page` invocation against a
well-behaved upstream (the fetch reports version `v`, non-falsy, and the
PUT response echoes the submitted version), the version submitted in the
PUT payload is exactly `v + 1`, and the version field of the returned
result is exactly `v + 1` as well.  The trace is the GET followed by the
PUT. -/
theorem c4_versioned_update_increment (apiBase pageId : String) (bk : Backend)
    (newTitle newHtmlContent : Option String) (minorEdit : Bool) (v : Int)
    (tv uid utitle : Json)
    (h0 : bk 0 = okResp (.obj [("title", tv), ("version", .obj [("number", .num v)])]))
    (hv : v ≠ 0)
    (h1 : bk 1 = okResp (.obj [("id", uid), ("title", utitle),
            ("version", .obj [("number", .num (v + 1))])])) :
    ((confluenceUpdatePage apiBase bk pageId newTitle newHtmlContent minorEdit).1.map
        (fun q => (q.method, q.url)) =
      [("GET", apiBase ++ "/content/" ++ pageId ++ "?expand=version"),
       ("PUT", apiBase ++ "/content/" ++ pageId)]) ∧
    ((reqBodyAt (confluenceUpdatePage apiBase bk pageId newTitle newHtmlContent minorEdit) 1).bind
        (fun b => jsonAt b ["version", "number"]) = some (.num (v + 1))) ∧
    okField (confluenceUpdatePage apiBase bk pageId newTitle newHtmlContent minorEdit) "version"
      = some (.num (v + 1)) := by
  have hrw : confluenceUpdatePage apiBase bk pageId newTitle newHtmlContent minorEdit =
      ([⟨"GET", apiBase ++ "/content/" ++ pageId ++ "?expand=version", none⟩,
        ⟨"PUT", apiBase ++ "/content/" ++ pageId,
          some (.obj
            ([("id", .str pageId), ("type", .str "page"),
              ("title", if pyTruthyOpt newTitle then optStrJson newTitle else tv),
              ("version", .obj [("number", .num (v + 1)), ("minorEdit", .bool minorEdit)])] ++
             (match newHtmlContent with
              | some h => [("body", storageBodyHtml h)]
              | none => [])))⟩],
       .ok (.obj [("message", .str "Page updated"), ("id", uid), ("title", utitle),
                  ("version", .num (v + 1))])) := by
    rw [confluenceUpdatePage.eq_def,
        cfRequest_ok bk [] "GET" (apiBase ++ "/content/" ++ pageId ++ "?expand=version") none _ h0]
    simp [step, dictGet, lookupField, pyFalsy, hv, pyAdd]
    cases hnt : pyTruthyOpt newTitle <;>
      simp only [hnt, Bool.false_eq_true, if_true, if_false, ite_true, ite_false] <;>
      rw [cfRequest_ok bk [⟨"GET", apiBase ++ "/content/" ++ pageId ++ "?expand=version", none⟩]
          "PUT" (apiBase ++ "/content/" ++ pageId) _ _ h1] <;>
      simp [step, dictGet, lookupField]
  rw [hrw]
  refine ⟨rfl, ?_, rfl⟩
  cases newHtmlContent <;> cases hnt : pyTruthyOpt newTitle <;>
    simp [reqBodyAt, jsonAt, lookupField, List.get?]

end MCP

namespace MCP

/-- C4 witness: against the concrete echoing backend reporting version 3,
the update submits version 4 in the PUT body and returns version 4. -/
theorem c4_versioned_update_increment_witness :
    ((confluenceUpdatePage "https://conf/rest/api" (echoBackend 3) "1" (some "t2") none
        false).1.map (fun q => (q.method, q.url)) =
      [("GET", "https://conf/rest/api/content/1?expand=version"),
       ("PUT", "https://conf/rest/api/content/1")]) ∧
    ((reqBodyAt (confluenceUpdatePage "https://conf/rest/api" (echoBackend 3) "1" (some "t2")
        none false) 1).bind (fun b => jsonAt b ["version", "number"]) = some (.num 4)) ∧
    okField (confluenceUpdatePage "https://conf/rest/api" (echoBackend 3) "1" (some "t2") none
        false) "version" = some (.num 4) :=
  c4_versioned_update_increment "https://conf/rest/api" "1" (echoBackend 3) (some "t2") none
    false 3 (.str "Old") (.str "7") (.str "New") rfl (by decide) rfl

/-- C6 counterexample: on a 404 whose body parses as JSON, the GitHub
request helper raises an error carrying the raw text, not the decoded
JSON object the claim describes for every request helper. -/
theorem c6_counterexample_github_raw_text :
    (githubRequest (fun _ => badResp) [] "GET" "https://api.github.com/x" none).2 =
      .error (.apiError "GitHub" 404 (.text "\x7b\"message\": \"Not Found\"\x7d")) ∧
    ¬ ((githubRequest (fun _ => badResp) [] "GET" "https://api.github.com/x" none).2 =
       .error (.apiError "GitHub" 404 (bestEffortDetail badResp))) := by
  refine ⟨rfl, ?_⟩
  intro h
  simp [githubRequest, badResp, bestEffortDetail] at h

/-- C6 (amended): every request helper turns a non-success response into
a structured error carrying the numeric status, but only the Confluence
helper attaches the best-effort decoded body (JSON if parseable, else raw
text); the GitHub and GitLab helpers and the OAuth helper always attach
the raw text. -/
theorem c6_error_normalization (r : HttpResp) (hok : r.ok = false) (bk : Backend)
    (trace : List HttpReq) (method url : String) (body : Option Json)
    (hbk : bk trace.length = r)
    (base user path : String) (tokens : String → Option String) (tok : String)
    (htok : tokens user = some tok) (hne : tok ≠ "") :
    (cfRequest bk trace method url body).2 =
      .error (.apiError "Confluence" r.status (bestEffortDetail r)) ∧
    (githubRequest bk trace method url body).2 =
      .error (.apiError "GitHub" r.status (.text r.text)) ∧
    (gitlabRequest bk trace method url body).2 =
      .error (.apiError "GitLab" r.status (.text r.text)) ∧
    (oauthGithubRequest base tokens bk trace user method path body).2 =
      .error (.httpException r.status r.text) := by
  refine ⟨?_, ?_, ?_, ?_⟩
  · cases hj : r.json <;> simp [cfRequest, hbk, hok, bestEffortDetail, hj]
  · simp [githubRequest, hbk, hok]
  · simp [gitlabRequest, hbk, hok]
  · simp [oauthGithubRequest, htok, hne, hbk, hok]

/-- C6 witness: the amended normalization at the concrete 404 response
with a JSON-parsable body, via each of the four request helpers. -/
theorem c6_error_normalization_witness :
    (cfRequest (fun _ => badResp) [] "GET" "u" none).2 =
      .error (.apiError "Confluence" 404 (.json (.obj [("message", .str "Not Found")]))) ∧
    (githubRequest (fun _ => badResp) [] "GET" "u" none).2 =
      .error (.apiError "GitHub" 404 (.text "\x7b\"message\": \"Not Found\"\x7d")) ∧
    (gitlabRequest (fun _ => badResp) [] "GET" "u" none).2 =
      .error (.apiError "GitLab" 404 (.text "\x7b\"message\": \"Not Found\"\x7d")) ∧
    (oauthGithubRequest "b" demoTokens (fun _ => badResp) [] "demo_user" "GET" "/x" none).2 =
      .error (.httpException 404 "\x7b\"message\": \"Not Found\"\x7d") :=
  c6_error_normalization badResp rfl (fun _ => badResp) [] "GET" "u" none rfl
    "b" "demo_user" "/x" demoTokens "tok" rfl (by decide)

/-- C7 counterexample: `query_github` invoked for a principal with no
stored credential, on an input matching no keyword, returns the
query-not-understood success — not an `Unauthenticated` error — because
the fallback branch never consults the token store.  This refutes "for
every tool invoked for a principal with no credential, the result is
Unauthenticated". -/
theorem c7_counterexample_unrecognized_without_credential :
    queryGithub "https://api.github.com" noTokens demoBackend "hello" "alice" =
      ([], .ok (.obj [("message", .str "Query not understood: hello")])) ∧
    ¬ ((queryGithub "https://api.github.com" noTokens demoBackend "hello" "alice").2 =
       .error (.httpException 401 "User not authenticated")) :=
  ⟨rfl, fun h => nomatch h⟩

/-- C7 (amended): every tool invocation that reaches the credential
lookup fails with the `Unauthenticated` error (401) before any upstream
request when the principal has no stored credential: the oauth request
helper, keyword-matching natural-language queries (oauth.py and
sample.py), and the weekly digest all return the 401 with an empty
trace, and sample.py's `get_auth_header` with no per-user token and no
static fallback token raises its 401.  A natural-language query matching
no keyword never reaches the lookup and returns the query-not-understood
success instead. -/
theorem c7_no_credential_unauthenticated (base user since : String)
    (tokens : String → Option String) (bk : Backend) (hnone : tokens user = none) :
    oauthGithubRequest base tokens bk [] user "GET" "/user" none =
      ([], .error (.httpException 401 "User not authenticated")) ∧
    queryGithub base tokens bk "list open issues" user =
      ([], .error (.httpException 401 "User not authenticated")) ∧
    weeklyDigest base tokens bk user since =
      ([], .error (.httpException 401 "User not authenticated")) ∧
    sampleQueryGithub tokens none bk "list open issues" user =
      ([], .error (.httpException 401 "No GitHub token available")) ∧
    getAuthHeader tokens none (some user) =
      .error (.httpException 401 "No GitHub token available") ∧
    (∀ q, pyInStr "pull" (pyLower q) = false → pyInStr "issue" (pyLower q) = false →
      pyInStr "release" (pyLower q) = false →
      queryGithub base tokens bk q user =
        ([], .ok (.obj [("message", .str ("Query not understood: " ++ q))]))) := by
  have hp : pyInStr "pull" (pyLower "list open issues") = false := rfl
  have hi : pyInStr "issue" (pyLower "list open issues") = true := rfl
  refine ⟨?_, ?_, ?_, ?_, ?_, ?_⟩
  · simp [oauthGithubRequest, hnone]
  · simp [queryGithub, hp, hi, oauthGithubRequest, hnone]
  · simp [weeklyDigest, step, oauthGithubRequest, hnone]
  · simp [sampleQueryGithub, hp, hi, sampleGithubRequest, getAuthHeader, hnone]
  · simp [getAuthHeader, hnone]
  · intro q h1 h2 h3
    simp [queryGithub, h1, h2, h3]

/-- C7 witness: with an empty token store, each credential-gated path
returns its 401 with nothing issued upstream, and the no-keyword query
returns the success. -/
theorem c7_no_credential_unauthenticated_witness :
    oauthGithubRequest "https://api.github.com" noTokens demoBackend [] "alice" "GET" "/user"
        none = ([], .error (.httpException 401 "User not authenticated")) ∧
    queryGithub "https://api.github.com" noTokens demoBackend "list open issues" "alice" =
      ([], .error (.httpException 401 "User not authenticated")) ∧
    weeklyDigest "https://api.github.com" noTokens demoBackend "alice" "2026-01-01T00:00:00Z" =
      ([], .error (.httpException 401 "User not authenticated")) ∧
    sampleQueryGithub noTokens none demoBackend "list open issues" "alice" =
      ([], .error (.httpException 401 "No GitHub token available")) ∧
    getAuthHeader noTokens none (some "alice") =
      .error (.httpException 401 "No GitHub token available") ∧
    queryGithub "https://api.github.com" noTokens demoBackend "bye" "alice" =
      ([], .ok (.obj [("message", .str ("Query not understood: " ++ "bye"))])) := by
  have h := c7_no_credential_unauthenticated "https://api.github.com" "alice"
    "2026-01-01T00:00:00Z" noTokens demoBackend rfl
  exact ⟨h.1, h.2.1, h.2.2.1, h.2.2.2.1, h.2.2.2.2.1, h.2.2.2.2.2 "bye" rfl rfl rfl⟩

/-- C8 counterexample: the query "pull issue" contains "issue", yet
`query_github` dispatches to the pulls endpoint, because "pull" is tested
first — refuting "every input containing issue dispatches to the
issues-listing path".  The two endpoints differ. -/
theorem c8_counterexample_pull_wins :
    (queryGithub "https://api.github.com" demoTokens demoBackend "pull issue" "demo_user").1 =
      [⟨"GET", "https://api.github.com/repos/org/repo/pulls?state=open", none⟩] ∧
    ¬ (("https://api.github.com/repos/org/repo/pulls?state=open" : String) =
       "https://api.github.com/repos/org/repo/issues?state=open") :=
  ⟨rfl, by decide⟩

/-- C8 (amended): an input containing "issue" and not containing "pull"
(case-insensitively) dispatches to the issues-listing path, and an input
matching none of the keywords "pull", "issue", "release" returns the
query-not-understood result — a success, not an error — with no upstream
request. -/
theorem c8_keyword_dispatch (base user query : String) (tokens : String → Option String)
    (bk : Backend) (tok : String) (htok : tokens user = some tok) (hne : tok ≠ "")
    (hpull : pyInStr "pull" (pyLower query) = false)
    (hissue : pyInStr "issue" (pyLower query) = true) :
    (queryGithub base tokens bk query user).1 =
      [⟨"GET", base ++ "/repos/org/repo/issues?state=open", none⟩] ∧
    (∀ q2, pyInStr "pull" (pyLower q2) = false → pyInStr "issue" (pyLower q2) = false →
      pyInStr "release" (pyLower q2) = false →
      queryGithub base tokens bk q2 user =
        ([], .ok (.obj [("message", .str ("Query not understood: " ++ q2))]))) := by
  constructor
  · simp [queryGithub, hpull, hissue, oauthGithubRequest, htok, hne]
    split <;> first | rfl | (split <;> rfl)
  · intro q2 h1 h2 h3
    simp [queryGithub, h1, h2, h3]

/-- C8 witness: "open issues" dispatches to the issues endpoint and
"hello" yields the not-understood success with no upstream call. -/
theorem c8_keyword_dispatch_witness :
    (queryGithub "https://api.github.com" demoTokens demoBackend "open issues" "demo_user").1 =
      [⟨"GET", "https://api.github.com" ++ "/repos/org/repo/issues?state=open", none⟩] ∧
    queryGithub "https://api.github.com" demoTokens demoBackend "hello" "demo_user" =
      ([], .ok (.obj [("message", .str ("Query not understood: " ++ "hello"))])) := by
  have h := c8_keyword_dispatch "https://api.github.com" "demo_user" "open issues" demoTokens
    demoBackend "tok" rfl (by decide) rfl rfl
  exact ⟨h.1, h.2 "hello" rfl rfl rfl⟩

end MCP
